import Mathlib

/-!
Shallow embedding of the `wire` HTTP/1.x client transport:
connection release protocol (`conn.maybeClose`), response body stream
(`body.Read` / `body.Close`), authority normalization (`hasPort`,
`defaultPort`), the idle-pool reaper's `drop`, the middleware `Wrap`
combinator, and the round-trip engine (`roundTrip`,
`Transport.RoundTrip`, `roundTripCancel`), each translated from the
Go source.
-/

namespace Wire

/-- Error values flowing through the transport.  `codec n` and
`transport n` stand for opaque errors produced by the HTTP codec and by
the dialer / raw stream; `cancelErr n` stands for a caller-supplied
cancellation error. -/
inductive Err where
  | unsupportedScheme
  | nilCancel
  | codec (n : Nat)
  | transport (n : Nat)
  | cancelErr (n : Nat)
deriving DecidableEq, Repr

/-- `heat.BodySize`: framing classification of a message body. -/
inductive BodySize where
  | exact (n : Nat)
  | chunked
  | unbounded
deriving DecidableEq, Repr

/-! ## conn.maybeClose (src/conn.go lines 50-81)

The connection's mutable state relevant to the release protocol: the
atomic `state` word and whether the raw stream's read deadline has been
cleared (`SetReadDeadline(time.Time{})`). -/

structure ConnSt where
  state : Nat
  deadlineCleared : Bool
deriving DecidableEq, Repr

/-- Terminal action taken by the second `maybeClose` call: park the
connection in the idle pool (`t.putIdle`) or close it (`c.Close`). -/
inductive RAction where
  | park
  | close
deriving DecidableEq, Repr

/-- Translation of `(*conn).maybeClose(reuse bool)`.  Returns the
connection state after the call together with the terminal action
performed, if any.  `halfReused = 1`, `halfClosed = 2`. -/
def maybeClose (c : ConnSt) (reuse : Bool) : ConnSt × Option RAction :=
  let next : Nat := if reuse then 1 else 2
  let prev := c.state
  let c' : ConnSt := { c with state := next }
  if prev = 0 then
    (c', none)
  else if reuse && prev = 1 then
    ({ c' with state := 0, deadlineCleared := true }, some .park)
  else
    (c', some .close)

/-! ## Response body stream (src/body.go) -/

/-- Errors observable on a body stream.  `netTimeout n` models a
`net.Error` whose `Timeout()` method returns true; `other n` models any
other opaque read error. -/
inductive BErr where
  | eof
  | readAfterClose
  | bodyTimeout
  | netTimeout (n : Nat)
  | other (n : Nat)
deriving DecidableEq, Repr

/-- The `err.(net.Error) && nerr.Timeout()` classification from
`body.Read`. -/
def BErr.isNetTimeout : BErr → Bool
  | .netTimeout _ => true
  | _ => false

/-- The `body` struct: sticky error, closed flag, and the reader-half
reuse eligibility computed by the engine at construction. -/
structure Body where
  err : Option BErr
  closed : Bool
  reuse : Bool
deriving DecidableEq, Repr

/-- Translation of `(*body).Read`.  The inner source's behaviour on this
call is supplied as `inner : Nat × Option BErr` (bytes read, error).
Returns the read result and the updated body. -/
def bodyRead (b : Body) (inner : Nat × Option BErr) : (Nat × Option BErr) × Body :=
  match b.err with
  | some e => ((0, some e), b)
  | none =>
    let (n, oe) := inner
    match oe with
    | none => ((n, none), b)
    | some e =>
      if e.isNetTimeout then
        ((n, some .bodyTimeout), b)
      else
        ((n, some e), { b with err := some e })

/-- Translation of `(*body).Close`.  Returns the updated body and the
argument passed to `c.maybeClose`, when that call is made. -/
def bodyClose (b : Body) : Body × Option Bool :=
  let b1 := if b.err = none then { b with err := some .readAfterClose } else b
  let call := if !b.closed then some (b1.reuse && b1.err = some .eof) else none
  ({ b1 with closed := true }, call)

/-! ## Middleware (src/middleware.go) -/

/-- A round-tripper maps a request to a result. -/
def RoundTripper (Req Res : Type) : Type := Req → Res

/-- A middleware receives the request and the next round-tripper. -/
def Middleware (Req Res : Type) : Type := Req → RoundTripper Req Res → Res

/-- The `wrapped` struct's `RoundTrip`: `w.fn(req, w.rt)`. -/
def wrapped (fn : Middleware Req Res) (rt : RoundTripper Req Res) : RoundTripper Req Res :=
  fun req => fn req rt

/-- Translation of `Wrap(rt, m...)`: the loop
`for i := len(m)-1; i >= 0; i-- { rt = &wrapped{m[i], rt} }`
is a right fold of `wrapped` over the middleware slice. -/
def Wrap (rt : RoundTripper Req Res) (ms : List (Middleware Req Res)) : RoundTripper Req Res :=
  ms.foldr wrapped rt

/-! ## Authority normalization (src/transport.go lines 124-155, 322-352)

`hasPort` iterates over the address with `for i, c := range addr` and,
on every `':'`, evaluates `addr[i-1]`.  When the `':'` sits at index 0
that access is out of bounds and the Go program panics, which the
embedding models as `none`. -/

/-- The loop of `hasPort`: `prev` is the character at the previous
index (`none` at index 0, where `addr[i-1]` would panic), `colons` and
`rbrack` are the loop accumulators. -/
def hasPortLoop : Option Char → Nat → Bool → List Char → Option (Nat × Bool)
  | _, colons, rbrack, [] => some (colons, rbrack)
  | prev, colons, rbrack, c :: rest =>
    if c = ':' then
      match prev with
      | none => none
      | some p => hasPortLoop (some c) (colons + 1) (decide (p = ']')) rest
    else
      hasPortLoop (some c) colons rbrack rest

/-- Translation of `hasPort(addr string) bool`; `none` models the
out-of-bounds panic on `addr[i-1]`. -/
def hasPort (addr : String) : Option Bool :=
  if addr.length = 0 then
    some false
  else
    match hasPortLoop none 0 false addr.data with
    | none => none
    | some (colons, rbrack) =>
      match colons with
      | 0 => some false
      | 1 => some true
      | _ => some (decide (addr.data.head? = some '[') && rbrack)

/-- `net.JoinHostPort`: brackets the host when it contains `':'` or
`'%'`, then joins with a colon. -/
def joinHostPort (host port : String) : String :=
  if host.data.any (fun c => c = ':' || c = '%') then
    "[" ++ host ++ "]:" ++ port
  else
    host ++ ":" ++ port

/-- Translation of `defaultPort(addr, port string) string` as written in
the source: when the address has no port it appends the literal `"80"`,
ignoring the `port` parameter.  `none` propagates the `hasPort`
panic. -/
def defaultPort (addr port : String) : Option String :=
  match hasPort addr with
  | none => none
  | some true => some addr
  | some false => some (joinHostPort addr "80")

/-- Outcome of the address normalization performed by
`(*Transport).dial` before invoking the dial function. -/
inductive DialAddrRes where
  | panicked
  | unsupported
  | ok (addr : String)
deriving DecidableEq, Repr

/-- The scheme switch of `(*Transport).dial`: "http" normalizes with
default port "80", "https" with "443", anything else fails with
`ErrUnsupportedScheme`. -/
def dialAddr (scheme addr : String) : DialAddrRes :=
  if scheme = "http" then
    match defaultPort addr "80" with
    | none => .panicked
    | some a => .ok a
  else if scheme = "https" then
    match defaultPort addr "443" with
    | none => .panicked
    | some a => .ok a
  else
    .unsupported

/-! ## Idle pool reaper: drop (src/transport.go lines 431-465) -/

/-- An idle connection as seen by the reaper: an identifier and its
`idleSince` timestamp. -/
structure IdleConn where
  id : Nat
  idleSince : Int
deriving DecidableEq, Repr

/-- The walk of `drop` past the (unexpired) head: advance `last` while
the entry is not expired, then close the first expired entry and every
successor.  Returns (entries kept after the head, entries closed). -/
def dropWalk (cutoff : Int) : List IdleConn → List IdleConn × List IdleConn
  | [] => ([], [])
  | c :: rest =>
    if c.idleSince < cutoff then
      ([], c :: rest)
    else
      let (k, cl) := dropWalk cutoff rest
      (c :: k, cl)

/-- Translation of the per-bucket body of `drop(m, cutoff)` on a bucket
`head :: tail`: if the head is expired, close the whole chain and delete
the key (`none`); otherwise walk the list, close from the first expired
entry onwards, and truncate (`last.next = nil`).  Returns (remaining
bucket or `none` when the key is deleted, closed connections). -/
def dropBucket (cutoff : Int) (head : IdleConn) (tail : List IdleConn) :
    Option (List IdleConn) × List IdleConn :=
  if head.idleSince < cutoff then
    (none, head :: tail)
  else
    let (k, cl) := dropWalk cutoff tail
    (some (head :: k), cl)

/-- Buckets hold `idleSince` timestamps in non-increasing order from
head to tail (newest first). -/
def nonincB : List IdleConn → Bool
  | [] => true
  | [_] => true
  | a :: b :: r => decide (b.idleSince ≤ a.idleSince) && nonincB (b :: r)

/-! ## Round-trip engine (src/unnamed/part_001)

The codec and I/O collaborators (`heat.WriteRequestHeader`, `c.Flush`,
`heat.ReadResponseHeader`, `heat.ResponseBodySize`, `heat.Closing`,
`heat.WriteBody`) are oracles: one `ExchEnv` record fixes the outcome
each of them produces during a given exchange. -/

structure ExchEnv where
  /-- Error from `heat.WriteRequestHeader(c, req)`. -/
  writeHeaderErr : Option Err
  /-- Error from the subsequent `c.Flush()`. -/
  flushErr : Option Err
  /-- `heat.Closing(req.Major, req.Minor, req.Fields)`. -/
  reqClosing : Bool
  /-- The validated request body size `wsize`. -/
  wsize : BodySize
  /-- Whether `heat.WriteBody` and the flush in the writer goroutine
  both succeed. -/
  bodyWriteOk : Bool
  /-- Error from `heat.ReadResponseHeader(c)`. -/
  readHeaderErr : Option Err
  /-- Error from `heat.ResponseBodySize(resp, req.Method)`. -/
  rsizeErr : Option Err
  /-- The response body size `rsize`. -/
  rsize : BodySize
  /-- `heat.Closing(resp.Major, resp.Minor, resp.Fields)`. -/
  respClosing : Bool
deriving DecidableEq, Repr

/-- What one call of the free function `roundTrip(c, req, wsize)` does:
the error it returns (`none` means a response is returned), the
`maybeClose` verdict the writer-half delivers (eventually, for the
spawned goroutine), the `maybeClose` verdict delivered synchronously by
the reader-half when `rsize == 0`, and the `reuse` flag of the `body`
attached to the response otherwise. -/
structure ExchResult where
  err : Option Err
  writerCall : Option Bool
  readerCall : Option Bool
  bodyAttached : Option Bool
deriving DecidableEq, Repr

/-- Translation of `roundTrip(c, req, wsize)` (part_001 lines 143-197). -/
def roundTripFn (env : ExchEnv) : ExchResult :=
  match env.writeHeaderErr with
  | some e => { err := some e, writerCall := none, readerCall := none, bodyAttached := none }
  | none =>
    match env.flushErr with
    | some e => { err := some e, writerCall := none, readerCall := none, bodyAttached := none }
    | none =>
      let reuse := !env.reqClosing
      let writerCall :=
        if env.wsize = .exact 0 then
          some reuse
        else
          some (env.bodyWriteOk && reuse)
      match env.readHeaderErr with
      | some e => { err := some e, writerCall := writerCall, readerCall := none, bodyAttached := none }
      | none =>
        match env.rsizeErr with
        | some e => { err := some e, writerCall := writerCall, readerCall := none, bodyAttached := none }
        | none =>
          let reuse2 := !env.respClosing
          if env.rsize = .exact 0 then
            { err := none, writerCall := writerCall, readerCall := some reuse2, bodyAttached := none }
          else
            { err := none, writerCall := writerCall, readerCall := none,
              bodyAttached := some (reuse2 && !decide (env.rsize = .unbounded)) }

/-- Result of the synchronous path of `Transport.RoundTrip` (cancel ==
nil, part_001 lines 59-72): the returned error and whether the engine
called `c.Close()` on the dialed connection. -/
structure SyncOut where
  retErr : Option Err
  closedConn : Bool
deriving DecidableEq, Repr

/-- Translation of the `cancel == nil` path of
`(*Transport).RoundTrip`: validate the body size, dial, run
`roundTrip`, and close the connection when `roundTrip` fails. -/
def syncRoundTripFn (wsizeErr dialErr : Option Err) (env : ExchEnv) : SyncOut :=
  match wsizeErr with
  | some e => { retErr := some e, closedConn := false }
  | none =>
    match dialErr with
    | some e => { retErr := some e, closedConn := false }
    | none =>
      match (roundTripFn env).err with
      | some e => { retErr := some e, closedConn := true }
      | none => { retErr := none, closedConn := false }

/-- Scheduling choices resolving the races in `roundTripCancel`:
which select branch fires in phase A, whether the dial goroutine's
compare-and-swap on `syn` executes before the cancel branch's, and
which select branch fires in phase B. -/
structure Sched where
  aCancel : Bool
  dialerCASFirst : Bool
  bCancel : Bool
deriving DecidableEq, Repr

/-- Outcome of `roundTripCancel` for one schedule: whether the call
panicked, the error it returned, whether the dialed connection was
parked (`t.putIdle`) or closed by `roundTripCancel` itself, and which
party won the compare-and-swap on `syn`. -/
structure CancelOut where
  panicked : Bool
  retErr : Option Err
  parked : Bool
  closedConn : Bool
  dialerCAS : Bool
  cancelerCAS : Bool
deriving DecidableEq, Repr

/-- Translation of `(*Transport).roundTripCancel` (part_001 lines
81-141).  `dialErr` is the dial goroutine's `t.dial` outcome; `cv1` and
`cv2` are the error values carried by the cancel channel in phase A and
phase B (`none` models a nil error).  The declaration
`c, err := t.dial(...)` inside the dial goroutine shadows the outer
`var c *conn`, so the outer `c` is still nil when the phase-B cancel
branch runs `c.Close()`: that branch panics, modelled by
`panicked := true`. -/
def roundTripCancelFn (dialErr : Option Err) (cv1 cv2 : Option Err)
    (sch : Sched) (env : ExchEnv) : CancelOut :=
  if sch.aCancel then
    -- Phase A, cancel branch: whichever CAS ran first claimed the
    -- baton; in both orders a successfully dialed connection is parked
    -- (by the cancel branch after receiving the baton, or by the dial
    -- goroutine after losing the CAS).
    { panicked := false,
      retErr := some (cv1.getD .nilCancel),
      parked := dialErr = none,
      closedConn := false,
      dialerCAS := sch.dialerCASFirst,
      cancelerCAS := !sch.dialerCASFirst }
  else
    -- Phase A, baton branch: the dial goroutine won the CAS and sent
    -- the baton; the cancel branch never attempted its CAS.
    match dialErr with
    | some e =>
      { panicked := false, retErr := some e, parked := false,
        closedConn := false, dialerCAS := true, cancelerCAS := false }
    | none =>
      if sch.bCancel then
        -- Phase B, cancel branch: `c.Close()` dereferences the nil
        -- outer `c` and panics.
        { panicked := true, retErr := none, parked := false,
          closedConn := false, dialerCAS := true, cancelerCAS := false }
      else
        -- Phase B, exchange result: `return b.r, b.e` without closing.
        { panicked := false, retErr := (roundTripFn env).err, parked := false,
          closedConn := false, dialerCAS := true, cancelerCAS := false }

/-- An exchange environment in which every codec and I/O operation
succeeds: empty request body, five-byte response body, keep-alive on
both sides. -/
def envOk : ExchEnv :=
  { writeHeaderErr := none, flushErr := none, reqClosing := false,
    wsize := .exact 0, bodyWriteOk := true, readHeaderErr := none,
    rsizeErr := none, rsize := .exact 5, respClosing := false }

/-- An exchange environment whose request-header write fails. -/
def envHdrFail : ExchEnv := { envOk with writeHeaderErr := some (.codec 7) }

end Wire

namespace Wire

/-- Claim C1: for every connection during an exchange, the first of the
two `maybeClose(reuse)` calls only records its verdict in the state
field and performs no other action; the second call parks the
connection (clearing the read deadline and resetting the state to 0)
if and only if both calls carried `reuse = true`, and otherwise closes
it; exactly one terminal action occurs, never zero and never two. -/
theorem c1_release_protocol (r1 r2 d : Bool) :
    (maybeClose ⟨0, d⟩ r1).2 = none ∧
    (maybeClose ⟨0, d⟩ r1).1.state = (if r1 then 1 else 2) ∧
    (maybeClose ⟨0, d⟩ r1).1.deadlineCleared = d ∧
    ((maybeClose (maybeClose ⟨0, d⟩ r1).1 r2).2 = some .park ↔ (r1 && r2) = true) ∧
    ((maybeClose (maybeClose ⟨0, d⟩ r1).1 r2).2 = some .close ↔ (r1 && r2) = false) ∧
    ((r1 && r2) = true →
      (maybeClose (maybeClose ⟨0, d⟩ r1).1 r2).1.state = 0 ∧
      (maybeClose (maybeClose ⟨0, d⟩ r1).1 r2).1.deadlineCleared = true) := by
  cases r1 <;> cases r2 <;> simp [maybeClose]

/-- Claim C2 (code evaluated at the failing input): `defaultPort`
ignores its `port` argument and always appends `":80"`, so an https
authority without a port is normalized to port 80, not 443. -/
theorem c2_default_port_ignores_port :
    defaultPort "example.com" "443" = some "example.com:80" ∧
    dialAddr "https" "example.com" = .ok "example.com:80" ∧
    dialAddr "http" "example.com" = .ok "example.com:80" := by
  refine ⟨?_, ?_, ?_⟩ <;> decide

/-- Claim C3 (code evaluated at the failing input): when the cancel
signal fires in phase B, `roundTripCancel` panics on the nil outer
`c` (shadowed by the dial goroutine's `c, err := t.dial(...)`) instead
of closing the exchange's connection and returning the cancel
error. -/
theorem c3_phase_b_cancel_panics :
    roundTripCancelFn none none (some (Err.cancelErr 3)) ⟨false, true, true⟩ envOk =
      { panicked := true, retErr := none, parked := false, closedConn := false,
        dialerCAS := true, cancelerCAS := false } := by
  decide

/-- Claim C9: `Wrap t` with no middleware is `t` itself, composition is
the right fold `Wrap rt (m :: ms) = Wrap (Wrap rt ms) [m]`, and
invoking the result calls `m req (Wrap rt ms)`. -/
theorem c9_wrap_composition (Req Res : Type) (rt : RoundTripper Req Res)
    (m : Middleware Req Res) (ms : List (Middleware Req Res)) (req : Req) :
    Wrap rt ([] : List (Middleware Req Res)) = rt ∧
    Wrap rt (m :: ms) = Wrap (Wrap rt ms) [m] ∧
    Wrap rt (m :: ms) req = m req (Wrap rt ms) := by
  exact ⟨rfl, rfl, rfl⟩

/-- Claim C10: on any address whose first character is `':'`, the
`addr[i-1]` access inside `hasPort` is out of bounds, so `hasPort`,
`defaultPort` and the scheme dispatch of `RoundTrip` all panic instead
of returning a value. -/
theorem c10_has_port_panics (s : String) (h : s.data.head? = some ':') :
    hasPort s = none ∧ defaultPort s "80" = none ∧ defaultPort s "443" = none ∧
    dialAddr "http" s = .panicked ∧ dialAddr "https" s = .panicked := by
  obtain ⟨data⟩ := s
  cases data with
  | nil => simp at h
  | cons c rest =>
    simp only [List.head?] at h
    obtain rfl : c = ':' := by injection h
    have hp : hasPort ⟨':' :: rest⟩ = none := by
      simp [hasPort, String.length, hasPortLoop]
    refine ⟨hp, ?_, ?_, ?_, ?_⟩ <;> simp [defaultPort, dialAddr, hp]

/-- Witness for C10 at the concrete address ":8080". -/
theorem c10_witness :
    (":8080" : String).data.head? = some ':' ∧ hasPort ":8080" = none :=
  ⟨rfl, (c10_has_port_panics ":8080" rfl).1⟩

/-- In a non-increasing bucket, the tail is also non-increasing. -/
lemma nonincB_tail {a : IdleConn} {l : List IdleConn}
    (h : nonincB (a :: l) = true) : nonincB l = true := by
  cases l with
  | nil => rfl
  | cons b r =>
    simp only [nonincB, Bool.and_eq_true] at h
    exact h.2

/-- In a non-increasing bucket every entry's timestamp is at most the
head's. -/
lemma nonincB_head_le {a : IdleConn} {l : List IdleConn}
    (h : nonincB (a :: l) = true) : ∀ x ∈ l, x.idleSince ≤ a.idleSince := by
  induction l generalizing a with
  | nil => intro x hx; cases hx
  | cons b r ih =>
    simp only [nonincB, Bool.and_eq_true, decide_eq_true_eq] at h
    intro x hx
    cases hx with
    | head => exact h.1
    | tail _ hx =>
      exact le_trans (ih (by simpa [nonincB] using h.2) x hx) h.1

/-- On a non-increasing list, the reaper's walk keeps exactly the
unexpired entries and closes exactly the expired ones. -/
lemma dropWalk_spec (cutoff : Int) (l : List IdleConn) (h : nonincB l = true) :
    dropWalk cutoff l =
      (l.filter (fun c => !decide (c.idleSince < cutoff)),
       l.filter (fun c => decide (c.idleSince < cutoff))) := by
  induction l with
  | nil => rfl
  | cons c rest ih =>
    by_cases hc : c.idleSince < cutoff
    · have hall : ∀ x ∈ c :: rest, x.idleSince < cutoff := by
        intro x hx
        cases hx with
        | head => exact hc
        | tail _ hx => exact lt_of_le_of_lt (nonincB_head_le h x hx) hc
      have h1 : (c :: rest).filter (fun c => !decide (c.idleSince < cutoff)) = [] := by
        refine List.filter_eq_nil_iff.mpr ?_
        intro x hx
        simp [hall x hx]
      have h2 : (c :: rest).filter (fun c => decide (c.idleSince < cutoff)) = c :: rest := by
        refine List.filter_eq_self.mpr ?_
        intro x hx
        simp [hall x hx]
      simp [dropWalk, hc, h1, h2]
    · have ih' := ih (nonincB_tail h)
      simp [dropWalk, hc, ih']

/-- Claim C8: on a bucket whose `idleSince` timestamps are
non-increasing from head to tail, `drop(cutoff)` closes exactly the
connections with `idleSince < cutoff`; when the head is expired the
whole bucket is closed and the key deleted, otherwise the list is
truncated just before the first expired entry, keeping exactly the
unexpired prefix. -/
theorem c8_drop_expired (cutoff : Int) (head : IdleConn) (tail : List IdleConn)
    (h : nonincB (head :: tail) = true) :
    (dropBucket cutoff head tail).2 =
      (head :: tail).filter (fun c => decide (c.idleSince < cutoff)) ∧
    (head.idleSince < cutoff → dropBucket cutoff head tail = (none, head :: tail)) ∧
    (¬ head.idleSince < cutoff →
      (dropBucket cutoff head tail).1 =
        some ((head :: tail).filter (fun c => !decide (c.idleSince < cutoff)))) := by
  by_cases hh : head.idleSince < cutoff
  · have hall : ∀ x ∈ head :: tail, x.idleSince < cutoff := by
      intro x hx
      cases hx with
      | head => exact hh
      | tail _ hx => exact lt_of_le_of_lt (nonincB_head_le h x hx) hh
    have h2 : (head :: tail).filter (fun c => decide (c.idleSince < cutoff)) = head :: tail := by
      refine List.filter_eq_self.mpr ?_
      intro x hx
      simp [hall x hx]
    refine ⟨by simp [dropBucket, hh, h2], fun _ => by simp [dropBucket, hh], fun hcon => absurd hh hcon⟩
  · have hw := dropWalk_spec cutoff tail (nonincB_tail h)
    refine ⟨?_, fun hcon => absurd hcon hh, fun _ => ?_⟩
    · simp [dropBucket, hh, hw]
    · simp [dropBucket, hh, hw]

/-- Witness for C8 on the bucket [(1,10),(2,5),(3,1)] with cutoff 3:
only the entry with timestamp 1 is expired and closed. -/
theorem c8_witness :
    nonincB [⟨1, 10⟩, ⟨2, 5⟩, ⟨3, 1⟩] = true ∧
    (dropBucket 3 ⟨1, 10⟩ [⟨2, 5⟩, ⟨3, 1⟩]).2 =
      ([⟨1, 10⟩, ⟨2, 5⟩, ⟨3, 1⟩] : List IdleConn).filter
        (fun c => decide (c.idleSince < 3)) :=
  ⟨by decide, (c8_drop_expired 3 ⟨1, 10⟩ [⟨2, 5⟩, ⟨3, 1⟩] (by decide)).1⟩

/-- Claim C4: the engine constructs the response body with
`reuse = !respClosing && rsize != Unbounded`; `Close` sets the sticky
error to `ReadAfterClose` when none is sticky, on the first close
(only) calls `maybeClose` with verdict `reuse && sticky == EOF`
(evaluated after the update, so the verdict is true exactly when the
stream had been drained to EOF), and a repeated close performs no
further action. -/
theorem c4_body_close (es : Option BErr) (closing : Bool) (rsz : BodySize)
    (env : ExchEnv) (h1 : env.writeHeaderErr = none) (h2 : env.flushErr = none)
    (h3 : env.readHeaderErr = none) (h4 : env.rsizeErr = none)
    (h5 : env.rsize ≠ BodySize.exact 0) :
    (roundTripFn env).bodyAttached =
      some (!env.respClosing && !decide (env.rsize = .unbounded)) ∧
    bodyClose { err := es, closed := false, reuse := !closing && !decide (rsz = .unbounded) } =
      ({ err := if es = none then some .readAfterClose else es, closed := true,
         reuse := !closing && !decide (rsz = .unbounded) },
       some ((!closing && !decide (rsz = .unbounded)) && decide (es = some .eof))) ∧
    (bodyClose
        (bodyClose { err := es, closed := false,
                     reuse := !closing && !decide (rsz = .unbounded) }).1) =
      ((bodyClose { err := es, closed := false,
                    reuse := !closing && !decide (rsz = .unbounded) }).1, none) := by
  refine ⟨?_, ?_, ?_⟩
  · simp [roundTripFn, h1, h2, h3, h4, h5]
  · cases es with
    | none => simp [bodyClose]
    | some e => simp [bodyClose]
  · cases es with
    | none => simp [bodyClose]
    | some e => simp [bodyClose]

/-- Witness for C4: a keep-alive five-byte body drained to EOF is
handed back with a reuse verdict of true. -/
theorem c4_witness :
    bodyClose { err := some .eof, closed := false,
                reuse := !false && !decide (BodySize.exact 5 = .unbounded) } =
      ({ err := if (some BErr.eof : Option BErr) = none then some .readAfterClose else some .eof,
         closed := true,
         reuse := !false && !decide (BodySize.exact 5 = .unbounded) },
       some ((!false && !decide (BodySize.exact 5 = .unbounded)) &&
         decide ((some BErr.eof : Option BErr) = some .eof))) :=
  (c4_body_close (some .eof) false (.exact 5) envOk rfl rfl rfl rfl (by decide)).2.1

/-- The first error produced by the header phase of `roundTrip`: the
request-header write, then its flush, then the response-header read. -/
def headerPhaseErr (env : ExchEnv) : Option Err :=
  match env.writeHeaderErr with
  | some e => some e
  | none =>
    match env.flushErr with
    | some e => some e
    | none => env.readHeaderErr

/-- Claim C5, amended: in a round trip without a cancel channel, an
error during the request-header write, the flush, or the
response-header read causes the engine to close the connection and
return the error; in a cancellable round trip the same error is
returned to the caller but the engine does not close the
connection. -/
theorem c5_header_errors (env : ExchEnv) (e : Err) (cv1 cv2 : Option Err)
    (dF : Bool) (h : headerPhaseErr env = some e) :
    (roundTripFn env).err = some e ∧
    syncRoundTripFn none none env = { retErr := some e, closedConn := true } ∧
    roundTripCancelFn none cv1 cv2 ⟨false, dF, false⟩ env =
      { panicked := false, retErr := some e, parked := false, closedConn := false,
        dialerCAS := true, cancelerCAS := false } := by
  have herr : (roundTripFn env).err = some e := by
    cases hw : env.writeHeaderErr with
    | some e' =>
      simp [headerPhaseErr, hw] at h
      simp [roundTripFn, hw, h]
    | none =>
      cases hf : env.flushErr with
      | some e' =>
        simp [headerPhaseErr, hw, hf] at h
        simp [roundTripFn, hw, hf, h]
      | none =>
        simp [headerPhaseErr, hw, hf] at h
        simp [roundTripFn, hw, hf, h]
  refine ⟨herr, ?_, ?_⟩
  · simp [syncRoundTripFn, herr]
  · simp [roundTripCancelFn, herr]

/-- Witness for C5 on a failing request-header write. -/
theorem c5_witness :
    syncRoundTripFn none none envHdrFail =
      { retErr := some (.codec 7), closedConn := true } :=
  (c5_header_errors envHdrFail (.codec 7) none none true rfl).2.1

/-- Claim C5, counterexample to the claim as stated: in a cancellable
round trip whose request-header write fails, the error is returned but
the connection is not closed by the engine. -/
theorem c5_counterexample :
    (roundTripCancelFn none none none ⟨false, true, false⟩ envHdrFail).retErr =
      some (.codec 7) ∧
    (roundTripCancelFn none none none ⟨false, true, false⟩ envHdrFail).closedConn =
      false := by
  refine ⟨?_, ?_⟩ <;> decide

/-- Claim C6: a successful body read leaves the sticky field
unchanged; a read-timeout error from the inner source is reported as
the distinct `BodyTimeout` without being persisted, so the next read
delegates to the inner source again; any other error is persisted and
returned by every subsequent read. -/
theorem c6_body_read (b : Body) (n : Nat) (e : BErr)
    (inner2 : Nat × Option BErr) (hb : b.err = none) :
    bodyRead b (n, none) = ((n, none), b) ∧
    (e.isNetTimeout = true →
      bodyRead b (n, some e) = ((n, some .bodyTimeout), b) ∧
      bodyRead (bodyRead b (n, some e)).2 inner2 = bodyRead b inner2) ∧
    (e.isNetTimeout = false →
      (bodyRead b (n, some e)).1 = (n, some e) ∧
      (bodyRead b (n, some e)).2.err = some e ∧
      bodyRead (bodyRead b (n, some e)).2 inner2 =
        ((0, some e), (bodyRead b (n, some e)).2)) := by
  refine ⟨by simp [bodyRead, hb], fun ht => ?_, fun ht => ?_⟩
  · constructor
    · simp [bodyRead, hb, ht]
    · simp [bodyRead, hb, ht]
  · refine ⟨by simp [bodyRead, hb, ht], by simp [bodyRead, hb, ht], ?_⟩
    simp [bodyRead, hb, ht]

/-- Witness for C6: a connection-reset style error is sticky across
reads. -/
theorem c6_witness :
    (bodyRead ⟨none, false, true⟩ (3, some (.other 9))).2.err = some (.other 9) :=
  ((c6_body_read ⟨none, false, true⟩ 3 (.other 9) (4, none) rfl).2.2 rfl).2.1

/-- Claim C7: when the cancel signal fires while the dial is still in
flight and the dial produces a usable connection, exactly one party
wins the compare-and-swap on the `syn` bit, and in either ordering the
connection ends up parked in the idle pool — never leaked, never
closed. -/
theorem c7_cancel_during_dial (dF bC : Bool) (cv1 cv2 : Option Err) (env : ExchEnv) :
    (roundTripCancelFn none cv1 cv2 ⟨true, dF, bC⟩ env).parked = true ∧
    (roundTripCancelFn none cv1 cv2 ⟨true, dF, bC⟩ env).closedConn = false ∧
    (roundTripCancelFn none cv1 cv2 ⟨true, dF, bC⟩ env).panicked = false ∧
    (roundTripCancelFn none cv1 cv2 ⟨true, dF, bC⟩ env).dialerCAS ≠
      (roundTripCancelFn none cv1 cv2 ⟨true, dF, bC⟩ env).cancelerCAS := by
  cases dF <;> simp [roundTripCancelFn]

end Wire
